import Mathlib

/-
Shallow embedding of the SupportRouter conversation controller
(src/enhanced_chatbot.py) and its Flask backend (src/enhanced_backend_api.py).

Modelling conventions:
  * Python strings are Lean `String`s; `str.strip()` and `str.lower()` are
    the structural `pyStrip`/`pyLower` below (ASCII-faithful; exotic Unicode
    whitespace/case is outside the scope of every claim).
  * The three external services (Gemini classifier, Gemini email composer,
    Resend dispatcher) are modelled as oracle outcomes carried by an `Env`
    record: the controller's handling of those outcomes is embedded
    faithfully, the remote computation itself is opaque.
  * ChromaDB calls (`save_to_chroma`, `search_knowledge_base`) only feed
    prompt context or are fire-and-forget; no claim depends on them, so they
    are embedded as no-ops (note: `search_knowledge_base` swallows its own
    exceptions in the source, so this is faithful for it).
  * Python exceptions escaping a function are modelled with an explicit
    error constructor; since Python mutates `self` in place, `process_message`
    returns the (possibly partially mutated) state even on an exception.
  * JSON values appearing in the classifier's parsed dict are modelled by
    `JVal` (strings and integers, the two shapes the prompt schema uses).
-/

namespace SupportRouter

/-- A JSON scalar value as stored in the classifier's parsed response dict. -/
inductive JVal where
  | s (v : String)
  | n (v : Int)
deriving DecidableEq, Repr

/-- One entry of `chat_history`: role ("user" or "assistant") and content.
The source also stores a wall-clock timestamp; no claim depends on it, so it
is dropped from the embedding. -/
structure Turn where
  role : String
  content : String
deriving DecidableEq, Repr

/-- The `email_data` dict of the controller, projected onto the fixed key set
the source ever writes ("name", "email", "company", "additional_details",
"importance", "subject", "department_email", "user_preview").
A `none` field means the key is absent from the dict. -/
structure EmailData where
  name : Option String := none
  email : Option String := none
  company : Option String := none
  additional_details : Option String := none
  importance : Option JVal := none
  subject : Option String := none
  department_email : Option String := none
  user_preview : Option String := none
deriving DecidableEq, Repr

/-- The per-session mutable state of `EnhancedDepartmentRouterChatbot`. -/
structure BotState where
  chat_history : List Turn
  session_id : String
  identified_department : Option JVal
  department_confidence : JVal
  email_workflow_active : Bool
  email_confirmation_pending : Bool
  original_user_question : String
  bot_response_to_question : String
  email_data : EmailData
  current_step : Nat
deriving DecidableEq, Repr

/-- Fresh controller state as built by `__init__` (with the session id then
overwritten by the caller, as `get_chatbot` does). -/
def initState (sid : String) : BotState :=
  { chat_history := []
    session_id := sid
    identified_department := none
    department_confidence := .n 0
    email_workflow_active := false
    email_confirmation_pending := false
    original_user_question := ""
    bot_response_to_question := ""
    email_data := {}
    current_step := 0 }

/-- The six conversation phases of the spec's state machine, as realised by
the controller's flag/step encoding (see `phaseOf`). -/
inductive Phase where
  | NORMAL
  | AWAITING_EMAIL_CONFIRMATION
  | COLLECTING_NAME
  | COLLECTING_EMAIL
  | COLLECTING_COMPANY
  | COLLECTING_DETAILS
deriving DecidableEq, Repr

/-- Decode the controller's flag/step encoding into a spec phase.
`process_message` checks `email_workflow_active` first, then
`email_confirmation_pending`; an active workflow with `current_step` past the
`workflow_steps` list is outside the machine (`none`). -/
def phaseOf (s : BotState) : Option Phase :=
  if s.email_workflow_active then
    if s.current_step = 0 then some .COLLECTING_NAME
    else if s.current_step = 1 then some .COLLECTING_EMAIL
    else if s.current_step = 2 then some .COLLECTING_COMPANY
    else if s.current_step = 3 then some .COLLECTING_DETAILS
    else none
  else if s.email_confirmation_pending then some .AWAITING_EMAIL_CONFIRMATION
  else some .NORMAL

/- ---------------- string helpers (Python semantics) ---------------- -/

/-- The ASCII whitespace set of Python `str.strip()`. -/
def isPySpace (c : Char) : Bool :=
  c = ' ' || c = '\t' || c = '\n' || c = '\r' || c = '\x0b' || c = '\x0c'

/-- Python `str.strip()`: drop leading and trailing whitespace. -/
def pyStrip (s : String) : String :=
  ⟨((s.toList.dropWhile isPySpace).reverse.dropWhile isPySpace).reverse⟩

/-- ASCII case folding of one character (Python `str.lower()` restricted to
ASCII, the alphabet of every token compared case-insensitively here). -/
def lowerChar (c : Char) : Char :=
  if 'A' ≤ c && c ≤ 'Z' then Char.ofNat (c.toNat + 32) else c

/-- Python `str.lower()`. -/
def pyLower (s : String) : String := ⟨s.toList.map lowerChar⟩

/-- Split a char list at every occurrence of `sep` (Python `str.split(sep)`
for a one-character separator). -/
def splitOnChar (sep : Char) : List Char → List (List Char)
  | [] => [[]]
  | c :: cs =>
    let r := splitOnChar sep cs
    if c = sep then [] :: r
    else
      match r with
      | [] => [[c]]
      | h :: t => (c :: h) :: t

/-- Test whether `p` is a prefix of `l` (on char lists). -/
def startsWithChars : List Char → List Char → Bool
  | [], _ => true
  | _ :: _, [] => false
  | a :: as, b :: bs => a = b && startsWithChars as bs

/-- Python `needle in haystack` on strings: substring containment. -/
def hasSubstr (needle : List Char) : List Char → Bool
  | [] => startsWithChars needle []
  | c :: cs => startsWithChars needle (c :: cs) || hasSubstr needle cs

/-- ASCII reading of the regex class `\w` (word character). -/
def isWordChar (c : Char) : Bool := c.isAlphanum || c = '_'

/-- The regex class `[\w\.-]` used for the local part and domain. -/
def isLocalChar (c : Char) : Bool := isWordChar c || c = '.' || c = '-'

/-- Does a char list match the regex fragment `[\w\.-]+\.\w+` entirely?
Since `\w` contains no dot, the dot of the fragment must be the last dot, so
the match is decided from the end: a nonempty word-char suffix, preceded by a
dot, preceded by a nonempty run of `[\w\.-]` chars. -/
def domainOk (cs : List Char) : Bool :=
  let rev := cs.reverse
  let tld := rev.takeWhile isWordChar
  let rest := rev.drop tld.length
  decide (tld ≠ []) &&
    (match rest with
     | '.' :: ds => decide (ds ≠ []) && ds.all isLocalChar
     | _ => false)

/-- Whether `re.search` with the anchored pattern `[\w\.-]+@[\w\.-]+\.\w+`
succeeds, i.e. the whole
(already stripped) string matches the email pattern. Neither char class
contains '@', so a match forces exactly one '@'. -/
def emailRegexMatches (u : String) : Bool :=
  match splitOnChar '@' u.toList with
  | [l, r] => decide (l ≠ []) && l.all isLocalChar && domainOk r
  | _ => false

/-- The fixed affirmative token list of `process_message`. -/
def confirm_words : List String := ["yes", "yeah", "sure", "ok", "okay", "please", "send"]

/-- The source's `any(word in user_message.lower() for word in confirm_words)`:
some token occurs as a substring of the lowercased message. -/
def isAffirmative (user_message : String) : Bool :=
  confirm_words.any fun w => hasSubstr w.toList (pyLower user_message).toList

/- ---------------- classifier (analyze_with_gemini) ---------------- -/

/-- Outcome of the classifier pipeline in `analyze_with_gemini`:
  * `error e`  — `generate_content` raised, or `json.loads` raised on the
    regex-extracted text (both land in the same `except Exception` block);
  * `noJson`   — the call returned text but `re.search` found no JSON object;
  * `parsed d` — a JSON object was extracted and loaded as the dict `d`.
The remote call and the regex/`json.loads` string processing of its opaque
text are the oracle boundary; everything after is embedded. -/
inductive GeminiOutcome where
  | error (e : String)
  | noJson
  | parsed (d : List (String × JVal))
deriving DecidableEq, Repr

/-- Python `dict.get(k)` on the parsed JSON dict (first binding wins; dicts
from `json.loads` have unique keys). -/
def dictGet (d : List (String × JVal)) (k : String) : Option JVal :=
  (d.find? fun p => p.1 = k).map fun p => p.2

/-- The fallback dict returned when no JSON object is found in the response. -/
def fallback_no_json : List (String × JVal) :=
  [("department", .s "General Inquiry"),
   ("confidence", .n 50),
   ("importance", .s "Medium"),
   ("user_response", .s "I\x27ll help you with your inquiry. Let me route this to the appropriate team."),
   ("reason", .s "Unable to parse AI response")]

/-- The fallback dict returned from the `except Exception` branch. -/
def fallback_error (e : String) : List (String × JVal) :=
  [("department", .s "General Inquiry"),
   ("confidence", .n 50),
   ("importance", .s "Medium"),
   ("user_response", .s "Thank you for your message. I\x27ll make sure the right team looks into this."),
   ("reason", .s ("Error: " ++ e))]

/-- The method `analyze_with_gemini`, as a function of the oracle outcome: a parsed dict
is returned verbatim (no schema validation), the two failure modes map to the
two fixed fallback dicts. -/
def analyze_with_gemini : GeminiOutcome → List (String × JVal)
  | .parsed d => d
  | .noJson => fallback_no_json
  | .error e => fallback_error e

/- ---------------- external-world parameters ---------------- -/

/-- The three artifacts `generate_intelligent_email` produces when it runs to
completion: the subject and the two rendered HTML documents ("subject",
"department_email", "user_preview"). Their content is opaque for every
claim. -/
structure ComposerOut where
  subject : String
  department_email : String
  user_preview : String
deriving DecidableEq, Repr

/-- Outcome of one `generate_intelligent_email` run. The LLM call and the
JSON parse sit inside try/except with a deterministic fallback and cannot
escape, but the body assembly after the try/except block —
`email_parts.get(..., '').strip()` on each paragraph and the final
`'\n'.join(body_paragraphs)` — raises `AttributeError`/`TypeError` when the
parsed LLM JSON carries non-string values (e.g. a null `paragraph3`), and
nothing catches it. The oracle outcome of a run is therefore either the
three artifacts or that uncaught exception. -/
inductive ComposerOutcome where
  | done (a : ComposerOut)
  | crash (e : String)
deriving DecidableEq, Repr

/-- External-world inputs for one `process_message` call: the classifier
outcome, the composer outcome, the `RESEND_API_KEY` environment variable, and
whether the Resend POST succeeds (`requests.post` + `raise_for_status` raise
nothing). -/
structure Env where
  gemini : GeminiOutcome
  composer : ComposerOutcome
  resendApiKey : Option String
  dispatchOk : Bool
deriving DecidableEq, Repr

/-- The fixed department table keys (`self.departments`); the configured
addresses come from environment variables and may be null, which only affects
the dispatch outcome already carried by `Env.dispatchOk`. -/
def department_names : List String :=
  ["Sales", "Technical Support", "Customer Service", "HR", "Billing", "General Inquiry"]

/-- The body of `send_email_to_department`'s try/except as a function of the
identified department: a missing `RESEND_API_KEY` raises;
`self.departments[self.identified_department]` raises `KeyError` unless the
identified department is one of the fixed keys (in particular when it is
`None` or a non-string); then the POST and `raise_for_status` succeed exactly
when `env.dispatchOk`. Every raise is caught and turned into `False`. The
request body (subject, HTML, reply-to) is pure data handed to the transport
oracle. -/
def resolve_dispatch (dept : Option JVal) (env : Env) : Bool :=
  match env.resendApiKey with
  | none => false
  | some _ =>
    match dept with
    | some (.s d) => if department_names.contains d then env.dispatchOk else false
    | _ => false

/-- The method `send_email_to_department`: the whole method body is one try/except
returning `False` on any exception, so the embedding is a total Boolean. -/
def send_email_to_department (s : BotState) (env : Env) : Bool :=
  resolve_dispatch s.identified_department env

/-- Python `str(x)` as used in f-strings over `self.identified_department`
(which may be `None` or a non-string JSON value). -/
def optJvalStr : Option JVal → String
  | none => "None"
  | some (.s v) => v
  | some (.n i) => toString i

/-- Python f-string rendering of `self.email_data.get(k)` (absent key prints
as `None`). -/
def optStrNone : Option String → String
  | none => "None"
  | some v => v

/-- The method `generate_intelligent_email`: the LLM composition, its
fallback template, and the two HTML renderings are opaque text for every
claim; on a completed run the three artifacts are recorded into `email_data`
("department_email", "user_preview", "subject"), as the source does at the
end of the method, and the user preview is returned. On a `crash` outcome
(see `ComposerOutcome`) the exception escapes before any of those
`email_data` writes is reached. -/
def generate_intelligent_email (s : BotState) (env : Env) :
    Except String (String × BotState) :=
  match env.composer with
  | .crash e => .error e
  | .done a =>
    .ok (a.user_preview,
      { s with email_data :=
        { s.email_data with
            department_email := some a.department_email
            user_preview := some a.user_preview
            subject := some a.subject } })

/- ---------------- workflow steps ---------------- -/

/-- The dict returned by `process_workflow_step`, projected on the keys it
ever carries. -/
structure StepResult where
  response : String
  complete : Bool
  email_html : Option String := none
  email_sent : Option Bool := none
deriving DecidableEq, Repr

/-- The list `self.workflow_steps`. -/
def workflow_steps : List String := ["name", "email", "company", "additional_details"]

/-- Result of one `process_workflow_step` call: the returned dict, or a
Python exception escaping it (the state mutations made before the raise
persist on the session object and are returned alongside). -/
inductive StepOutcome where
  | ok (r : StepResult)
  | exn (e : String)
deriving DecidableEq, Repr

/-- The method `process_workflow_step`. Indexing the list at `current_step`
raises `IndexError` when `current_step` is past the list; otherwise the step
named by the list entry runs. In the details step, a composer crash escapes
after the additional-details slot was written and before dispatch and before
`email_workflow_active` is cleared. The trailing "Something went wrong"
return of the source is kept (it is reachable only if the list held an
unknown name). -/
def process_workflow_step (s : BotState) (env : Env) (user_input : String) :
    StepOutcome × BotState :=
  match workflow_steps.get? s.current_step with
  | none => (.exn "IndexError: list index out of range", s)
  | some current_step_name =>
    if current_step_name = "name" then
      (.ok { response := "Thank you! Now, please provide your **email address**:"
             complete := false },
       { s with email_data := { s.email_data with name := some (pyStrip user_input) }
                current_step := s.current_step + 1 })
    else if current_step_name = "email" then
      let stripped := pyStrip user_input
      if emailRegexMatches stripped then
        (.ok { response := "Great! Please provide your **company name** (or type \x27individual\x27 if personal):"
               complete := false },
         { s with email_data := { s.email_data with email := some stripped }
                  current_step := s.current_step + 1 })
      else
        (.ok { response := "Please provide a valid email address (e.g., name@company.com):"
               complete := false }, s)
    else if current_step_name = "company" then
      (.ok { response := "Perfect! Do you have any **additional details** you\x27d like to add regarding your question?\n\n**Your original question:** \"" ++ s.original_user_question ++ "\"\n\n(Type any additional information, or type \x27none\x27 if you don\x27t have any)"
             complete := false },
       { s with email_data := { s.email_data with company := some (pyStrip user_input) }
                current_step := s.current_step + 1 })
    else if current_step_name = "additional_details" then
      let details := if ["none", "n/a", "no"].contains (pyLower user_input)
                     then "" else pyStrip user_input
      let s1 := { s with email_data := { s.email_data with additional_details := some details } }
      match generate_intelligent_email s1 env with
      | .error e => (.exn e, s1)
      | .ok (email_html, s2) =>
        let email_sent := send_email_to_department s2 env
        let s3 := { s2 with email_workflow_active := false }
        let response_msg := "‚úÖ **Email Generated and Sent Successfully!**\n\n" ++
          (if email_sent then
            "Your request has been forwarded to our **" ++ optJvalStr s3.identified_department ++
            "** team. They will contact you at **" ++ optStrNone s3.email_data.email ++ "** shortly."
           else
            "‚ö†Ô∏è Email generated but could not be sent automatically (SMTP not configured).\n\nThe email has been prepared and will be sent to the **" ++
            optJvalStr s3.identified_department ++ "** department.")
        (.ok { response := response_msg
               complete := true
               email_html := some email_html
               email_sent := some email_sent }, s3)
    else
      (.ok { response := "Something went wrong. Please try again."
             complete := false }, s)

/- ---------------- process_message ---------------- -/

/-- The dict returned by `process_message`, projected on the keys it ever
carries (`none` marks a key absent from that branch's dict; the nested
"analysis" dict is flattened into the three `analysis_*` fields). -/
structure ProcessResult where
  bot_response : String
  status : String
  workflow_active : Bool
  current_step : Option Nat := none
  session_id : String
  email_html : Option String := none
  email_sent : Option Bool := none
  analysis_department : Option JVal
  analysis_confidence : JVal
  analysis_reason : JVal
  department : Option JVal
deriving DecidableEq, Repr

/-- Result of one `process_message` call: either the returned dict, or a
Python exception escaping the method (the state mutations made before the
raise persist on the session object and are returned alongside). -/
inductive PResult where
  | ok (r : ProcessResult)
  | exn (e : String)
deriving DecidableEq, Repr

/-- Did `process_message` return (rather than raise)? -/
def PResult.isOk : PResult → Bool
  | .ok _ => true
  | .exn _ => false

/-- The `bot_response` field of a returned dict. -/
def PResult.response : PResult → Option String
  | .ok r => some r.bot_response
  | .exn _ => none

/-- The `status` field of a returned dict. -/
def PResult.statusOf : PResult → Option String
  | .ok r => some r.status
  | .exn _ => none

/-- The `email_sent` field of a returned dict (inner `none` = key absent). -/
def PResult.emailSentOf : PResult → Option (Option Bool)
  | .ok r => some r.email_sent
  | .exn _ => none

/-- The `email_html` field of a returned dict (inner `none` = key absent). -/
def PResult.emailHtmlOf : PResult → Option (Option String)
  | .ok r => some r.email_html
  | .exn _ => none

/-- Append the user turn then the assistant turn to `chat_history`, the
pattern each non-raising branch of `process_message` performs. -/
def appendTurns (s : BotState) (u a : String) : BotState :=
  { s with chat_history := s.chat_history ++ [⟨"user", u⟩, ⟨"assistant", a⟩] }

/-- The lookup `analysis.get("user_response", default)` followed by the string
concatenation `bot_response + email_offer`: a non-string value makes the
concatenation raise `TypeError`. -/
def strOrTypeError (v : Option JVal) (dflt : String) : Except String String :=
  match v with
  | some (.s u) => .ok u
  | some (.n _) => .error "TypeError: can only concatenate str to str"
  | none => .ok dflt

/-- The method `process_message`. Branch order as in the source: active workflow first,
then pending confirmation, then normal processing (knowledge search and
ChromaDB writes elided per the module header). Exceptions leave the state
mutated up to the raise point. -/
def process_message (s : BotState) (user_message : String) (env : Env) :
    PResult × BotState :=
  if s.email_workflow_active then
    match process_workflow_step s env user_message with
    | (.exn e, s1) => (.exn e, s1)
    | (.ok result, s1) =>
      let s2 := appendTurns s1 user_message result.response
      (.ok { bot_response := result.response
             status := if result.complete then "email_complete" else "collecting_info"
             workflow_active := !result.complete
             current_step := some s2.current_step
             session_id := s2.session_id
             email_html := result.email_html
             email_sent := some (result.email_sent.getD false)
             analysis_department := s2.identified_department
             analysis_confidence := s2.department_confidence
             analysis_reason := .s "Email workflow in progress"
             department := s2.identified_department }, s2)
  else if s.email_confirmation_pending then
    if isAffirmative user_message then
      let s1 := { s with email_workflow_active := true
                         email_confirmation_pending := false
                         current_step := 0 }
      let response := "Great! Let\x27s collect some information to send your request to our team.\n\n**Please provide your full name:**"
      let s2 := appendTurns s1 user_message response
      (.ok { bot_response := response
             status := "workflow_started"
             workflow_active := true
             current_step := some 0
             session_id := s2.session_id
             analysis_department := s2.identified_department
             analysis_confidence := s2.department_confidence
             analysis_reason := .s "User confirmed email sending"
             department := s2.identified_department }, s2)
    else
      let s1 := { s with email_confirmation_pending := false }
      let response := "No problem! Is there anything else I can help you with?"
      let s2 := appendTurns s1 user_message response
      (.ok { bot_response := response
             status := "normal"
             workflow_active := false
             session_id := s2.session_id
             analysis_department := s2.identified_department
             analysis_confidence := s2.department_confidence
             analysis_reason := .s "User declined email sending"
             department := s2.identified_department }, s2)
  else
    let s1 := { s with chat_history := s.chat_history ++ [⟨"user", user_message⟩] }
    let analysis := analyze_with_gemini env.gemini
    match dictGet analysis "department" with
    | none => (.exn "KeyError: department", s1)
    | some dep =>
      match dictGet analysis "confidence" with
      | none => (.exn "KeyError: confidence", { s1 with identified_department := some dep })
      | some conf =>
        let s2 := { s1 with
          identified_department := some dep
          department_confidence := conf
          original_user_question := user_message
          email_data := { s1.email_data with
            importance := some ((dictGet analysis "importance").getD (.s "Medium")) } }
        match strOrTypeError (dictGet analysis "user_response") "I\x27ll help you with that." with
        | .error e => (.exn e, s2)
        | .ok bot_response =>
          let email_offer := "\n\nüìß Would you like me to forward this question to our **" ++
            optJvalStr (some dep) ++ "** team via email for a detailed response?"
          let full_response := bot_response ++ email_offer
          let s3 := { s2 with
            bot_response_to_question := bot_response
            email_confirmation_pending := true
            chat_history := s2.chat_history ++ [⟨"assistant", full_response⟩] }
          (.ok { bot_response := full_response
                 status := "awaiting_confirmation"
                 workflow_active := false
                 session_id := s3.session_id
                 analysis_department := some dep
                 analysis_confidence := conf
                 analysis_reason := (dictGet analysis "reason").getD (.s "")
                 department := some dep }, s3)

/-- The method `reset_conversation` of the controller: every session field is reset and
a fresh identifier (drawn by `uuid.uuid4()`, modelled as the argument) is
installed. -/
def reset_conversation (_s : BotState) (freshUuid : String) : BotState :=
  { chat_history := []
    session_id := freshUuid
    identified_department := none
    department_confidence := .n 0
    email_workflow_active := false
    email_confirmation_pending := false
    original_user_question := ""
    bot_response_to_question := ""
    email_data := {}
    current_step := 0 }

/-- Run a sequence of messages through one session (same oracle env). -/
def runMessages (s : BotState) (env : Env) : List String → BotState
  | [] => s
  | m :: ms => runMessages (process_message s m env).2 env ms

/-- Every call in the sequence returns normally (no Python exception). -/
def allOk (s : BotState) (env : Env) : List String → Bool
  | [] => true
  | m :: ms =>
    (process_message s m env).1.isOk && allOk (process_message s m env).2 env ms

/- ---------------- backend API (enhanced_backend_api.py) ---------------- -/

/-- The process-wide `chatbot_sessions` dict: session id → controller state,
in insertion order. -/
abbrev Registry := List (String × BotState)

/-- Dict lookup on the registry. -/
def registryGet : Registry → String → Option BotState
  | [], _ => none
  | (k', v') :: rest, k => if k' = k then some v' else registryGet rest k

/-- Dict assignment on the registry: replace the binding in place when the
key exists, otherwise append a new binding. -/
def registrySet : Registry → String → BotState → Registry
  | [], k, v => [(k, v)]
  | (k', v') :: rest, k, v =>
    if k' = k then (k, v) :: rest else (k', v') :: registrySet rest k v

/-- The route helper `get_chatbot`: return the registered controller, or build a fresh one
(raising `ValueError` when `GEMINI_API_KEY` is absent), stamp it with the
requested id, and register it under that id. Constructor-time cloud-client
setup is elided (no claim depends on it). -/
def get_chatbot (reg : Registry) (session_id : String) (geminiKey : Option String) :
    Except String (BotState × Registry) :=
  match registryGet reg session_id with
  | some c => .ok (c, reg)
  | none =>
    match geminiKey with
    | none => .error "ValueError: GEMINI_API_KEY not found in environment variables"
    | some _ =>
      let c := initState session_id
      .ok (c, registrySet reg session_id c)

/-- JSON body of a `/api/reset` response (a `none` field = key absent). -/
structure ResetResponse where
  httpStatus : Nat
  success : Bool
  message : Option String := none
  new_session_id : Option String := none
  error : Option String := none
deriving DecidableEq, Repr

/-- The `/api/reset` route. A missing or empty (falsy) `session_id` is a 400.
When the id is registered, the controller is reset **in place** — the
registry key is not changed and no entry is created for the fresh id the
reset installs; the fresh id is reported back. When the id is unknown, a
fresh uuid is reported and the registry is untouched. Exactly one uuid is
drawn on either path (modelled as `freshUuid`). -/
def api_reset (reg : Registry) (sidOpt : Option String) (freshUuid : String) :
    ResetResponse × Registry :=
  let sid := sidOpt.getD ""
  if sid = "" then
    ({ httpStatus := 400, success := false, error := some "session_id is required" }, reg)
  else
    match registryGet reg sid with
    | some c =>
      let c' := reset_conversation c freshUuid
      ({ httpStatus := 200, success := true
         message := some "Conversation reset successfully"
         new_session_id := some c'.session_id },
       registrySet reg sid c')
    | none =>
      ({ httpStatus := 200, success := true
         message := some "Conversation reset successfully"
         new_session_id := some freshUuid }, reg)

/-- JSON body of a `/api/history` response (a `none` field = key absent;
`session_id_value` distinguishes an absent key from an explicit JSON null). -/
structure HistoryResponse where
  httpStatus : Nat
  success : Bool
  history : List Turn := []
  identified_department : Option JVal := none
  session_id_value : Option String := none
  error : Option String := none
deriving DecidableEq, Repr

/-- The `/api/history` route. A missing/empty (falsy) `session_id` is a 400;
a registered id returns the controller's log, department and id; an unknown
id returns HTTP 200 with `success: true`, an empty history and JSON nulls. -/
def api_history (reg : Registry) (sidOpt : Option String) : HistoryResponse :=
  let sid := sidOpt.getD ""
  if sid = "" then
    { httpStatus := 400, success := false, error := some "session_id is required" }
  else
    match registryGet reg sid with
    | some c =>
      { httpStatus := 200, success := true
        history := c.chat_history
        identified_department := c.identified_department
        session_id_value := some c.session_id }
    | none =>
      { httpStatus := 200, success := true
        history := []
        identified_department := none
        session_id_value := none }

/-- JSON body of a `/api/chat` response, projected on the fields claims
inspect. -/
structure ChatResponse where
  httpStatus : Nat
  success : Bool
  response : Option String := none
  status : Option String := none
  session_id : Option String := none
  conversation_history : List Turn := []
  workflow_active : Bool := false
  error : Option String := none
deriving DecidableEq, Repr

/-- The `/api/chat` route: validate the message, resolve the session id
(falsy → a fresh uuid), get-or-create the controller, process the message,
and store the (mutated, even on an exception) controller back; any exception
becomes a 500 JSON error. -/
def api_chat (reg : Registry) (message : Option String) (sidOpt : Option String)
    (freshUuid : String) (geminiKey : Option String) (env : Env) :
    ChatResponse × Registry :=
  match message with
  | none => ({ httpStatus := 400, success := false, error := some "Message is required" }, reg)
  | some rawMsg =>
    let msg := pyStrip rawMsg
    let sid := match sidOpt with
      | none => freshUuid
      | some v => if v = "" then freshUuid else v
    if msg = "" then
      ({ httpStatus := 400, success := false, error := some "Message cannot be empty" }, reg)
    else
      match get_chatbot reg sid geminiKey with
      | .error e => ({ httpStatus := 500, success := false, error := some e }, reg)
      | .ok (c, reg1) =>
        match process_message c msg env with
        | (.exn e, c') =>
          ({ httpStatus := 500, success := false, error := some e }, registrySet reg1 sid c')
        | (.ok r, c') =>
          ({ httpStatus := 200, success := true
             response := some r.bot_response
             status := some r.status
             session_id := some r.session_id
             conversation_history := c'.chat_history
             workflow_active := r.workflow_active }, registrySet reg1 sid c')

/- ---------------- phase decoding lemmas ---------------- -/

lemma phaseOf_awaiting_iff (s : BotState) :
    phaseOf s = some .AWAITING_EMAIL_CONFIRMATION ↔
      s.email_workflow_active = false ∧ s.email_confirmation_pending = true := by
  unfold phaseOf
  cases hw : s.email_workflow_active <;> cases hp : s.email_confirmation_pending <;>
    simp <;> split_ifs <;> simp

lemma phaseOf_normal_iff (s : BotState) :
    phaseOf s = some .NORMAL ↔
      s.email_workflow_active = false ∧ s.email_confirmation_pending = false := by
  unfold phaseOf
  cases hw : s.email_workflow_active <;> cases hp : s.email_confirmation_pending <;>
    simp <;> split_ifs <;> simp

lemma phaseOf_name_iff (s : BotState) :
    phaseOf s = some .COLLECTING_NAME ↔
      s.email_workflow_active = true ∧ s.current_step = 0 := by
  unfold phaseOf
  cases hw : s.email_workflow_active <;> cases hp : s.email_confirmation_pending <;>
    simp <;> split_ifs <;> simp_all

lemma phaseOf_email_iff (s : BotState) :
    phaseOf s = some .COLLECTING_EMAIL ↔
      s.email_workflow_active = true ∧ s.current_step = 1 := by
  unfold phaseOf
  cases hw : s.email_workflow_active <;> cases hp : s.email_confirmation_pending <;>
    simp <;> split_ifs <;> simp_all

lemma phaseOf_company_iff (s : BotState) :
    phaseOf s = some .COLLECTING_COMPANY ↔
      s.email_workflow_active = true ∧ s.current_step = 2 := by
  unfold phaseOf
  cases hw : s.email_workflow_active <;> cases hp : s.email_confirmation_pending <;>
    simp <;> split_ifs <;> simp_all

lemma phaseOf_details_iff (s : BotState) :
    phaseOf s = some .COLLECTING_DETAILS ↔
      s.email_workflow_active = true ∧ s.current_step = 3 := by
  unfold phaseOf
  cases hw : s.email_workflow_active <;> cases hp : s.email_confirmation_pending <;>
    simp <;> split_ifs <;> simp_all

/- ---------------- concrete fixtures ---------------- -/

/-- An environment whose dispatcher key is absent and whose classifier found
no JSON object. -/
def envNoKey : Env :=
  { gemini := .noJson
    composer := .done ⟨"Subject", "DeptHtml", "PreviewHtml"⟩
    resendApiKey := none
    dispatchOk := false }

/-- An environment with a configured dispatcher key and a succeeding POST. -/
def envSendOk : Env :=
  { gemini := .noJson
    composer := .done ⟨"Subject", "DeptHtml", "PreviewHtml"⟩
    resendApiKey := some "re_key"
    dispatchOk := true }

/-- An environment whose classifier response parsed as the empty JSON
object: valid JSON, but not the expected structure. -/
def envEmptyDict : Env :=
  { gemini := .parsed []
    composer := .done ⟨"Subject", "DeptHtml", "PreviewHtml"⟩
    resendApiKey := none
    dispatchOk := false }

/-- An environment whose composer body assembly raises (e.g. the parsed LLM
JSON carried a null paragraph, so `.strip()` raised `AttributeError`). -/
def envCrash : Env :=
  { gemini := .noJson
    composer := .crash "AttributeError: NoneType object has no attribute strip"
    resendApiKey := some "re_key"
    dispatchOk := true }

/-- A session awaiting the email-offer confirmation. -/
def sAwaiting : BotState :=
  { initState "sid-await" with
      email_confirmation_pending := true
      identified_department := some (.s "Billing")
      department_confidence := .n 90 }

/-- A session in the name-collection step. -/
def sName : BotState :=
  { initState "sid-name" with
      email_workflow_active := true
      current_step := 0
      identified_department := some (.s "Billing") }

/-- A session in the email-collection step. -/
def sEmail : BotState :=
  { initState "sid-email" with
      email_workflow_active := true
      current_step := 1
      identified_department := some (.s "Billing")
      email_data := { name := some "Jane" } }

/-- A session in the company-collection step. -/
def sCompany : BotState :=
  { initState "sid-company" with
      email_workflow_active := true
      current_step := 2
      identified_department := some (.s "Billing")
      email_data := { name := some "Jane", email := some "jane@acme.com" } }

/-- A session in the final details step. -/
def sDetails : BotState :=
  { initState "sid-details" with
      email_workflow_active := true
      current_step := 3
      identified_department := some (.s "Billing")
      original_user_question := "My invoice amount looks wrong"
      email_data := { name := some "Jane", email := some "jane@acme.com", company := some "Acme" } }

/- ---------------- claims ---------------- -/

/-- C1: in the `AWAITING_EMAIL_CONFIRMATION` phase an inbound message is
treated as affirmative if and only if one of the fixed tokens
yes/yeah/sure/ok/okay/please/send case-insensitively matches (occurs in) the
message — `isAffirmative` is literally that token test, and the two branches
below cover its `true`/`false` cases exhaustively. An affirmative message
moves the session to `COLLECTING_NAME` with the workflow active at step 0;
any other message moves it to `NORMAL` with the fixed neutral acknowledgment,
and in both cases no workflow slot is touched. -/
theorem C1_confirmation_transition (s : BotState) (msg : String) (env : Env)
    (h : phaseOf s = some .AWAITING_EMAIL_CONFIRMATION) :
    (isAffirmative msg = true →
      (process_message s msg env).1.statusOf = some "workflow_started" ∧
      phaseOf (process_message s msg env).2 = some .COLLECTING_NAME ∧
      (process_message s msg env).2.email_workflow_active = true ∧
      (process_message s msg env).2.current_step = 0 ∧
      (process_message s msg env).2.email_data = s.email_data) ∧
    (isAffirmative msg = false →
      (process_message s msg env).1.statusOf = some "normal" ∧
      (process_message s msg env).1.response =
        some "No problem! Is there anything else I can help you with?" ∧
      phaseOf (process_message s msg env).2 = some .NORMAL ∧
      (process_message s msg env).2.email_data = s.email_data ∧
      (process_message s msg env).2.identified_department = s.identified_department ∧
      (process_message s msg env).2.department_confidence = s.department_confidence) := by
  obtain ⟨hw, hp⟩ := (phaseOf_awaiting_iff s).mp h
  constructor <;> intro ha <;>
    simp [process_message, hw, hp, ha, appendTurns, phaseOf,
      PResult.statusOf, PResult.response]

/-- Witness for C1 at the spec's own example inputs. -/
theorem C1_confirmation_transition_witness :
    phaseOf sAwaiting = some .AWAITING_EMAIL_CONFIRMATION ∧
    isAffirmative "Sure!" = true ∧
    phaseOf (process_message sAwaiting "Sure!" envNoKey).2 = some .COLLECTING_NAME ∧
    isAffirmative "no thanks" = false ∧
    phaseOf (process_message sAwaiting "no thanks" envNoKey).2 = some .NORMAL ∧
    (process_message sAwaiting "no thanks" envNoKey).2.email_data = sAwaiting.email_data := by
  refine ⟨by decide, by decide, ?_, by decide, ?_, ?_⟩
  · exact ((C1_confirmation_transition sAwaiting "Sure!" envNoKey (by decide)).1 (by decide)).2.1
  · exact ((C1_confirmation_transition sAwaiting "no thanks" envNoKey (by decide)).2
      (by decide)).2.2.1
  · exact ((C1_confirmation_transition sAwaiting "no thanks" envNoKey (by decide)).2
      (by decide)).2.2.2.1

/-- One invalid input in the email step leaves flags, step and slots as they
were (only the turn log grows). -/
lemma email_phase_invalid_step (s : BotState) (env : Env) (msg : String)
    (hw : s.email_workflow_active = true) (hs : s.current_step = 1)
    (hm : emailRegexMatches (pyStrip msg) = false) :
    (process_message s msg env).2.email_workflow_active = true ∧
    (process_message s msg env).2.current_step = 1 ∧
    (process_message s msg env).2.email_data = s.email_data := by
  simp [process_message, process_workflow_step, hw, hs, workflow_steps, hm, appendTurns]

/-- Any number of invalid inputs leaves the email step where it is. -/
lemma email_phase_invalid_iter (env : Env) :
    ∀ (msgs : List String) (s : BotState),
      s.email_workflow_active = true → s.current_step = 1 →
      (∀ m ∈ msgs, emailRegexMatches (pyStrip m) = false) →
      (runMessages s env msgs).email_workflow_active = true ∧
      (runMessages s env msgs).current_step = 1 ∧
      (runMessages s env msgs).email_data.email = s.email_data.email := by
  intro msgs
  induction msgs with
  | nil => intro s hw hs _; simp [runMessages]; exact ⟨hw, hs⟩
  | cons m ms ih =>
    intro s hw hs hall
    have h1 := email_phase_invalid_step s env m hw hs (hall m (by simp))
    have h2 := ih (process_message s m env).2 h1.1 h1.2.1 fun x hx => hall x (by simp [hx])
    refine ⟨?_, ?_, ?_⟩ <;> simp only [runMessages]
    · exact h2.1
    · exact h2.2.1
    · rw [h2.2.2, h1.2.2]

/-- C2: in the `COLLECTING_EMAIL` phase, an input whose stripped form matches
the email pattern stores that matched string in the email slot and advances
to `COLLECTING_COMPANY`; any non-matching input leaves the phase and the
email slot unchanged and reprompts with the fixed retry message, and this
holds under any number of repetitions, so the phase never advances until a
matching string is supplied. -/
theorem C2_email_validation (s : BotState) (env : Env)
    (h : phaseOf s = some .COLLECTING_EMAIL) :
    (∀ msg, emailRegexMatches (pyStrip msg) = true →
      (process_message s msg env).1.statusOf = some "collecting_info" ∧
      (process_message s msg env).2.email_data.email = some (pyStrip msg) ∧
      phaseOf (process_message s msg env).2 = some .COLLECTING_COMPANY) ∧
    (∀ msg, emailRegexMatches (pyStrip msg) = false →
      (process_message s msg env).1.response =
        some "Please provide a valid email address (e.g., name@company.com):" ∧
      (process_message s msg env).2.email_data.email = s.email_data.email ∧
      phaseOf (process_message s msg env).2 = some .COLLECTING_EMAIL) ∧
    (∀ msgs : List String, (∀ m ∈ msgs, emailRegexMatches (pyStrip m) = false) →
      phaseOf (runMessages s env msgs) = some .COLLECTING_EMAIL ∧
      (runMessages s env msgs).email_data.email = s.email_data.email) := by
  obtain ⟨hw, hs⟩ := (phaseOf_email_iff s).mp h
  refine ⟨?_, ?_, ?_⟩
  · intro msg hm
    simp [process_message, process_workflow_step, hw, hs, workflow_steps, hm,
      appendTurns, phaseOf, PResult.statusOf]
  · intro msg hm
    simp [process_message, process_workflow_step, hw, hs, workflow_steps, hm,
      appendTurns, phaseOf, PResult.response]
  · intro msgs hall
    have h2 := email_phase_invalid_iter env msgs s hw hs hall
    exact ⟨(phaseOf_email_iff _).mpr ⟨h2.1, h2.2.1⟩, h2.2.2⟩

/-- Witness for C2 at the spec's own example inputs. -/
theorem C2_email_validation_witness :
    phaseOf sEmail = some .COLLECTING_EMAIL ∧
    emailRegexMatches (pyStrip "a@b.co") = true ∧
    (process_message sEmail "a@b.co" envNoKey).2.email_data.email = some "a@b.co" ∧
    phaseOf (process_message sEmail "a@b.co" envNoKey).2 = some .COLLECTING_COMPANY ∧
    phaseOf (runMessages sEmail envNoKey ["not-an-email", ""]) = some .COLLECTING_EMAIL := by
  refine ⟨by decide, by decide, ?_, ?_, ?_⟩
  · exact (((C2_email_validation sEmail envNoKey (by decide)).1 "a@b.co" (by decide)).2.1)
  · exact (((C2_email_validation sEmail envNoKey (by decide)).1 "a@b.co" (by decide)).2.2)
  · exact ((C2_email_validation sEmail envNoKey (by decide)).2.2 ["not-an-email", ""]
      (by decide)).1

/-- C9: the `COLLECTING_NAME` and `COLLECTING_COMPANY` steps accept every
input, including empty and whitespace-only text: the stripped (possibly
empty) string is stored in the corresponding slot and the workflow advances
to the next phase, with no non-emptiness validation. -/
theorem C9_name_company_accept_anything (s : BotState) (msg : String) (env : Env) :
    (phaseOf s = some .COLLECTING_NAME →
      (process_message s msg env).1.statusOf = some "collecting_info" ∧
      (process_message s msg env).2.email_data.name = some (pyStrip msg) ∧
      phaseOf (process_message s msg env).2 = some .COLLECTING_EMAIL) ∧
    (phaseOf s = some .COLLECTING_COMPANY →
      (process_message s msg env).1.statusOf = some "collecting_info" ∧
      (process_message s msg env).2.email_data.company = some (pyStrip msg) ∧
      phaseOf (process_message s msg env).2 = some .COLLECTING_DETAILS) := by
  constructor
  · intro h
    obtain ⟨hw, hs⟩ := (phaseOf_name_iff s).mp h
    simp [process_message, process_workflow_step, hw, hs, workflow_steps,
      appendTurns, phaseOf, PResult.statusOf]
  · intro h
    obtain ⟨hw, hs⟩ := (phaseOf_company_iff s).mp h
    simp [process_message, process_workflow_step, hw, hs, workflow_steps,
      appendTurns, phaseOf, PResult.statusOf]

/-- Witness for C9: a whitespace-only name and an empty company are both
accepted and stored as the empty string. -/
theorem C9_name_company_accept_anything_witness :
    phaseOf sName = some .COLLECTING_NAME ∧
    (process_message sName "   " envNoKey).2.email_data.name = some "" ∧
    phaseOf (process_message sName "   " envNoKey).2 = some .COLLECTING_EMAIL ∧
    phaseOf sCompany = some .COLLECTING_COMPANY ∧
    (process_message sCompany "" envNoKey).2.email_data.company = some "" ∧
    phaseOf (process_message sCompany "" envNoKey).2 = some .COLLECTING_DETAILS := by
  refine ⟨by decide, ?_, ?_, by decide, ?_, ?_⟩
  · exact ((C9_name_company_accept_anything sName "   " envNoKey).1 (by decide)).2.1
  · exact ((C9_name_company_accept_anything sName "   " envNoKey).1 (by decide)).2.2
  · exact ((C9_name_company_accept_anything sCompany "" envNoKey).2 (by decide)).2.1
  · exact ((C9_name_company_accept_anything sCompany "" envNoKey).2 (by decide)).2.2

/-- The controller's flag invariant: an active workflow never has the
email-confirmation flag set (the two branches starting the workflow clear it,
and no workflow step raises it). -/
def flagsConsistent (s : BotState) : Prop :=
  s.email_workflow_active = true → s.email_confirmation_pending = false

lemma flagsConsistent_init (sid : String) : flagsConsistent (initState sid) := by
  intro h
  simp [initState] at h

/-- Every workflow step preserves `email_confirmation_pending` verbatim. -/
lemma pws_pending_eq (s : BotState) (env : Env) (u : String) :
    (process_workflow_step s env u).2.email_confirmation_pending =
      s.email_confirmation_pending := by
  unfold process_workflow_step generate_intelligent_email
  rcases hg : workflow_steps.get? s.current_step with _ | nm
  · rfl
  · dsimp only
    cases env.composer <;> split_ifs <;> rfl

/-- The flag invariant holds initially and is preserved by every call to
`process_message`, so every reachable session state satisfies it; the phase
hypotheses of C5/C7 below pair with it. -/
lemma flagsConsistent_process (s : BotState) (msg : String) (env : Env)
    (h : flagsConsistent s) : flagsConsistent (process_message s msg env).2 := by
  unfold flagsConsistent process_message
  cases hw : s.email_workflow_active with
  | true =>
    have hpend := pws_pending_eq s env msg
    cases hstep : process_workflow_step s env msg with
    | mk out s1 =>
      rw [hstep] at hpend
      dsimp only at hpend
      cases out with
      | exn e => intro _; simpa [hpend] using h hw
      | ok r => intro _; simpa [appendTurns, hpend] using h hw
  | false =>
    cases hp : s.email_confirmation_pending with
    | true =>
      cases ha : isAffirmative msg <;> simp [appendTurns, hw]
    | false =>
      rcases hdep : dictGet (analyze_with_gemini env.gemini) "department" with _ | dep
      · simp [hw, hdep]
      · rcases hconf : dictGet (analyze_with_gemini env.gemini) "confidence" with _ | conf
        · simp [hw, hdep, hconf]
        · rcases hur : strOrTypeError (dictGet (analyze_with_gemini env.gemini) "user_response")
              "I\x27ll help you with that." with e | br <;> simp [hw, hdep, hconf, hur]

/-- C5 exactly as stated: in the `COLLECTING_DETAILS` phase (under the
controller's reachable-flag invariant) every input completes the step —
status `email_complete` — and returns the phase to `NORMAL`, for every
environment. -/
def C5_claim_as_stated : Prop :=
  ∀ (s : BotState) (msg : String) (env : Env),
    flagsConsistent s → phaseOf s = some .COLLECTING_DETAILS →
    (process_message s msg env).1.statusOf = some "email_complete" ∧
    phaseOf (process_message s msg env).2 = some .NORMAL

/-- C5 counterexample: when the composer's post-try body assembly raises (a
non-string parsed-JSON part), the exception escapes `process_message`
uncaught: the step does not complete, the dispatcher is never invoked, and
the session stays in `COLLECTING_DETAILS` instead of returning to `NORMAL`. -/
theorem C5_counterexample : ¬ C5_claim_as_stated := by
  intro h
  have h1 := (h sDetails "no details" envCrash (fun _ => by decide) (by decide)).1
  exact absurd h1 (by decide)

/-- C5 (amended): the `COLLECTING_DETAILS` step accepts any input; an input
case-insensitively equal to "none", "n/a" or "no" is normalized to the empty
string before being stored in the additional-details slot (this much holds
for every composer outcome, since the slot is written before the composer
runs). Provided the Email Composer run completes, the step then invokes the
Email Dispatcher synchronously (its Boolean outcome and the composed preview
are reported in the response) and the phase returns to `NORMAL` regardless of
the dispatch outcome — a dispatch failure neither re-enters the workflow nor
retries. If instead the composer's post-try body assembly raises (see the
counterexample), the exception escapes, the dispatcher is not invoked, no
turns are appended, and the session remains in `COLLECTING_DETAILS`. The
`flagsConsistent` hypothesis is the controller's reachability invariant
(`flagsConsistent_init`/`flagsConsistent_process`). -/
theorem C5_details_terminal (s : BotState) (msg : String) (env : Env)
    (hwf : flagsConsistent s)
    (h : phaseOf s = some .COLLECTING_DETAILS) :
    ((process_message s msg env).2.email_data.additional_details =
      some (if ["none", "n/a", "no"].contains (pyLower msg) then "" else pyStrip msg)) ∧
    (∀ a : ComposerOut, env.composer = .done a →
      (process_message s msg env).1.statusOf = some "email_complete" ∧
      (process_message s msg env).1.emailHtmlOf = some (some a.user_preview) ∧
      (process_message s msg env).2.email_data.subject = some a.subject ∧
      (process_message s msg env).1.emailSentOf =
        some (some (send_email_to_department s env)) ∧
      phaseOf (process_message s msg env).2 = some .NORMAL ∧
      (process_message s msg env).2.email_workflow_active = false) ∧
    (∀ e : String, env.composer = .crash e →
      (process_message s msg env).1 = .exn e ∧
      (process_message s msg env).2.chat_history = s.chat_history ∧
      phaseOf (process_message s msg env).2 = some .COLLECTING_DETAILS) := by
  obtain ⟨hw, hs⟩ := (phaseOf_details_iff s).mp h
  have hp := hwf hw
  refine ⟨?_, ?_, ?_⟩
  · rcases hc : env.composer with a | e <;>
      simp [process_message, process_workflow_step, hw, hs, hp, workflow_steps,
        appendTurns, generate_intelligent_email, hc]
  · intro a hc
    refine ⟨?_, ?_, ?_, ?_, ?_, ?_⟩ <;>
      simp [process_message, process_workflow_step, hw, hs, hp, workflow_steps,
        appendTurns, phaseOf, generate_intelligent_email, send_email_to_department,
        resolve_dispatch, hc, PResult.statusOf, PResult.emailHtmlOf, PResult.emailSentOf]
  · intro e hc
    refine ⟨?_, ?_, ?_⟩ <;>
      simp [process_message, process_workflow_step, hw, hs, hp, workflow_steps,
        appendTurns, phaseOf, generate_intelligent_email, hc]

/-- Witness for the amended C5: input "NONE" normalizes the slot to the empty
string, a completed composer run returns the phase to `NORMAL` with the
(failed) dispatch outcome reported, and at the crash environment the session
stays in `COLLECTING_DETAILS`. -/
theorem C5_details_terminal_witness :
    phaseOf sDetails = some .COLLECTING_DETAILS ∧
    (process_message sDetails "NONE" envNoKey).2.email_data.additional_details = some "" ∧
    phaseOf (process_message sDetails "NONE" envNoKey).2 = some .NORMAL ∧
    (process_message sDetails "NONE" envNoKey).1.emailSentOf = some (some false) ∧
    phaseOf (process_message sDetails "x" envCrash).2 = some .COLLECTING_DETAILS := by
  have h1 := C5_details_terminal sDetails "NONE" envNoKey (fun _ => by decide) (by decide)
  have h2 := C5_details_terminal sDetails "x" envCrash (fun _ => by decide) (by decide)
  have hdone := h1.2.1 ⟨"Subject", "DeptHtml", "PreviewHtml"⟩ rfl
  refine ⟨by decide, ?_, hdone.2.2.2.2.1, ?_, ?_⟩
  · rw [h1.1]; decide
  · rw [hdone.2.2.2.1]; decide
  · exact (h2.2.2 "AttributeError: NoneType object has no attribute strip" rfl).2.2

/-- C7: the email dispatch returns a Boolean; a missing `RESEND_API_KEY`, a
failing transport call, or an unroutable identified department are all
reported as `false` (the embedding of the source's single try/except is a
total Boolean function, so no exception can pass the Controller); and with a
`false` dispatch outcome the details step still completes normally — no
exception, status `email_complete`, phase back to `NORMAL` — and the reply is
the fixed user-visible prepared-but-not-sent message. The completion clause
is stated for runs whose composer completed (`env.composer = .done a`): in
any execution where the dispatcher actually ran and reported `false`, the
composer had already completed, so this is exactly the domain the claim
speaks about. -/
theorem C7_dispatch_failure_reported (s : BotState) (env : Env)
    (hwf : flagsConsistent s) :
    (env.resendApiKey = none → send_email_to_department s env = false) ∧
    (env.dispatchOk = false → send_email_to_department s env = false) ∧
    (s.identified_department = none → send_email_to_department s env = false) ∧
    (∀ (msg : String) (a : ComposerOut), env.composer = .done a →
      phaseOf s = some .COLLECTING_DETAILS →
      send_email_to_department s env = false →
      (process_message s msg env).1.isOk = true ∧
      (process_message s msg env).1.statusOf = some "email_complete" ∧
      (process_message s msg env).1.emailSentOf = some (some false) ∧
      (process_message s msg env).1.response = some
        ("‚úÖ **Email Generated and Sent Successfully!**\n\n" ++
          ("‚ö†Ô∏è Email generated but could not be sent automatically (SMTP not configured).\n\nThe email has been prepared and will be sent to the **" ++
            optJvalStr s.identified_department ++ "** department.")) ∧
      phaseOf (process_message s msg env).2 = some .NORMAL) := by
  refine ⟨?_, ?_, ?_, ?_⟩
  · intro hk
    simp only [send_email_to_department, resolve_dispatch, hk]
  · intro hd
    unfold send_email_to_department resolve_dispatch
    cases env.resendApiKey <;> simp
    cases hdep : s.identified_department with
    | none => simp
    | some j => cases j <;> simp [hd]
  · intro hdep
    unfold send_email_to_department resolve_dispatch
    cases env.resendApiKey <;> simp [hdep]
  · intro msg a hc h hsend
    obtain ⟨hw, hs⟩ := (phaseOf_details_iff s).mp h
    have hp := hwf hw
    rw [send_email_to_department] at hsend
    refine ⟨?_, ?_, ?_, ?_, ?_⟩ <;>
      simp [process_message, process_workflow_step, hw, hs, hp, workflow_steps,
        appendTurns, phaseOf, generate_intelligent_email, send_email_to_department,
        hc, hsend, PResult.statusOf, PResult.emailSentOf, PResult.response, PResult.isOk]

/-- Witness for C7: with no dispatcher key configured the send reports
`false` and the details step still completes with the prepared-but-not-sent
reply. -/
theorem C7_dispatch_failure_reported_witness :
    send_email_to_department sDetails envNoKey = false ∧
    (process_message sDetails "no extra details" envNoKey).1.isOk = true ∧
    (process_message sDetails "no extra details" envNoKey).1.statusOf = some "email_complete" ∧
    phaseOf (process_message sDetails "no extra details" envNoKey).2 = some .NORMAL := by
  have hthm := C7_dispatch_failure_reported sDetails envNoKey (fun _ => by decide)
  have hsend : send_email_to_department sDetails envNoKey = false := hthm.1 rfl
  have hmain := hthm.2.2.2 "no extra details" ⟨"Subject", "DeptHtml", "PreviewHtml"⟩ rfl
    (by decide) hsend
  exact ⟨hsend, hmain.1, hmain.2.1, hmain.2.2.2.2⟩

/- ---------------- C3: classifier failure handling ---------------- -/

/-- The structure the classifier prompt requests: the five expected keys are
present in the parsed dict. -/
def expected_structure (d : List (String × JVal)) : Prop :=
  (dictGet d "department").isSome ∧ (dictGet d "confidence").isSome ∧
  (dictGet d "importance").isSome ∧ (dictGet d "user_response").isSome ∧
  (dictGet d "reason").isSome

/-- "The classifier call fails or its response cannot be parsed as the
expected structure": the call raised, no JSON object was found, or the JSON
that was loaded does not have the expected shape. -/
def classifier_bad (o : GeminiOutcome) : Prop :=
  (∃ e, o = .error e) ∨ o = .noJson ∨ ∃ d, o = .parsed d ∧ ¬ expected_structure d

/-- C3 exactly as stated: every failed-or-unparseable-as-expected outcome
yields the fixed fallback (department "General Inquiry", confidence 50) and
the session still proceeds to `AWAITING_EMAIL_CONFIRMATION` as on success. -/
def C3_claim_as_stated : Prop :=
  ∀ o : GeminiOutcome, classifier_bad o →
    dictGet (analyze_with_gemini o) "department" = some (.s "General Inquiry") ∧
    dictGet (analyze_with_gemini o) "confidence" = some (.n 50) ∧
    ∀ (s : BotState) (msg : String) (env : Env),
      phaseOf s = some .NORMAL → env.gemini = o →
      (process_message s msg env).1.isOk = true ∧
      (process_message s msg env).2.email_confirmation_pending = true

/-- C3 counterexample: a response that loads as the empty JSON object is not
the expected structure, yet `analyze_with_gemini` returns it verbatim rather
than the fallback (and `process_message` then raises `KeyError` instead of
reaching `AWAITING_EMAIL_CONFIRMATION`). -/
theorem C3_counterexample : ¬ C3_claim_as_stated := by
  intro h
  have hb : classifier_bad (.parsed []) :=
    Or.inr (Or.inr ⟨[], rfl, by simp [expected_structure, dictGet]⟩)
  have h1 := (h (.parsed []) hb).1
  simp [analyze_with_gemini, dictGet] at h1

/-- C3 (amended): when the classifier call raises, or its response contains
no loadable JSON object, the result is the fixed fallback — department
"General Inquiry", confidence 50, urgency "Medium", a generic acknowledgment
reply — and the session stores that department and confidence and proceeds to
`AWAITING_EMAIL_CONFIRMATION` exactly as on a successful classification. (A
response that loads as JSON but lacks the expected keys is returned verbatim
and makes `process_message` raise — see the counterexample.) -/
theorem C3_fallback (o : GeminiOutcome) (honj : o = .noJson ∨ ∃ e, o = .error e) :
    dictGet (analyze_with_gemini o) "department" = some (.s "General Inquiry") ∧
    dictGet (analyze_with_gemini o) "confidence" = some (.n 50) ∧
    dictGet (analyze_with_gemini o) "importance" = some (.s "Medium") ∧
    ∀ (s : BotState) (msg : String) (env : Env),
      phaseOf s = some .NORMAL → env.gemini = o →
      (process_message s msg env).1.statusOf = some "awaiting_confirmation" ∧
      (process_message s msg env).2.identified_department = some (.s "General Inquiry") ∧
      (process_message s msg env).2.department_confidence = .n 50 ∧
      (process_message s msg env).2.email_data.importance = some (.s "Medium") ∧
      phaseOf (process_message s msg env).2 = some .AWAITING_EMAIL_CONFIRMATION := by
  have main : ∀ (o' : GeminiOutcome), analyze_with_gemini o' = fallback_no_json ∨
      (∃ e, analyze_with_gemini o' = fallback_error e) →
      dictGet (analyze_with_gemini o') "department" = some (.s "General Inquiry") ∧
      dictGet (analyze_with_gemini o') "confidence" = some (.n 50) ∧
      dictGet (analyze_with_gemini o') "importance" = some (.s "Medium") ∧
      ∀ (s : BotState) (msg : String) (env : Env),
        phaseOf s = some .NORMAL → env.gemini = o' →
        (process_message s msg env).1.statusOf = some "awaiting_confirmation" ∧
        (process_message s msg env).2.identified_department = some (.s "General Inquiry") ∧
        (process_message s msg env).2.department_confidence = .n 50 ∧
        (process_message s msg env).2.email_data.importance = some (.s "Medium") ∧
        phaseOf (process_message s msg env).2 = some .AWAITING_EMAIL_CONFIRMATION := by
    intro o' hfb
    have hdict : ∀ k, dictGet (analyze_with_gemini o') k = dictGet fallback_no_json k ∨
        ∃ e, dictGet (analyze_with_gemini o') k = dictGet (fallback_error e) k := by
      intro k
      rcases hfb with hfb | ⟨e, hfb⟩
      · exact Or.inl (by rw [hfb])
      · exact Or.inr ⟨e, by rw [hfb]⟩
    refine ⟨?_, ?_, ?_, ?_⟩
    · rcases hdict "department" with hk | ⟨e, hk⟩ <;> rw [hk] <;> rfl
    · rcases hdict "confidence" with hk | ⟨e, hk⟩ <;> rw [hk] <;> rfl
    · rcases hdict "importance" with hk | ⟨e, hk⟩ <;> rw [hk] <;> rfl
    · intro s msg env hph henv
      obtain ⟨hw, hp⟩ := (phaseOf_normal_iff s).mp hph
      rcases hfb with hfb | ⟨e, hfb⟩ <;>
        simp [process_message, hw, hp, henv, hfb, fallback_no_json, fallback_error,
          dictGet, strOrTypeError, appendTurns, phaseOf, PResult.statusOf]
  rcases honj with h | ⟨e, h⟩ <;> subst h
  · exact main .noJson (Or.inl rfl)
  · exact main (.error e) (Or.inr ⟨e, rfl⟩)

/-- Witness for the amended C3 at the no-JSON outcome from a fresh session. -/
theorem C3_fallback_witness :
    phaseOf (initState "w3") = some .NORMAL ∧
    envNoKey.gemini = .noJson ∧
    (process_message (initState "w3") "hello" envNoKey).2.identified_department =
      some (.s "General Inquiry") ∧
    (process_message (initState "w3") "hello" envNoKey).2.department_confidence = .n 50 ∧
    phaseOf (process_message (initState "w3") "hello" envNoKey).2 =
      some .AWAITING_EMAIL_CONFIRMATION := by
  have hm := (C3_fallback .noJson (Or.inl rfl)).2.2.2 (initState "w3") "hello" envNoKey
    (by decide) rfl
  exact ⟨by decide, rfl, hm.2.1, hm.2.2.1, hm.2.2.2.2⟩

/- ---------------- C4: two turns per processed message ---------------- -/

/-- Every workflow step leaves `chat_history` untouched (the caller appends
the turns afterwards). -/
lemma pws_history_eq (s : BotState) (env : Env) (u : String) :
    (process_workflow_step s env u).2.chat_history = s.chat_history := by
  unfold process_workflow_step generate_intelligent_email
  rcases hg : workflow_steps.get? s.current_step with _ | nm
  · rfl
  · dsimp only
    cases env.composer <;> split_ifs <;> rfl

/-- C4 counterexample: with a classifier response that loads as the empty
JSON object, `process_message` on a fresh session raises `KeyError` after
appending only the user turn, so the turn log is left at odd length 1 — not
the two appended turns the claim requires in every case. -/
theorem C4_counterexample :
    (process_message (initState "c4") "hi" envEmptyDict).2.chat_history =
      [⟨"user", "hi"⟩] ∧
    (process_message (initState "c4") "hi" envEmptyDict).2.chat_history.length ≠ 2 ∧
    (process_message (initState "c4") "hi" envEmptyDict).1 = .exn "KeyError: department" := by
  refine ⟨rfl, by decide, rfl⟩

/-- C4 (amended): whenever `process_message` returns normally, exactly one
user turn and then one assistant turn are appended to the turn log before the
call returns, in every phase; hence any run in which every call returns
normally grows the log by exactly 2N for N messages. (A call that raises —
see the counterexample — leaves a lone user turn.) -/
theorem C4_turns_per_exchange :
    (∀ (s : BotState) (msg : String) (env : Env),
      (process_message s msg env).1.isOk = true →
      (process_message s msg env).2.chat_history =
        s.chat_history ++ [⟨"user", msg⟩,
          ⟨"assistant", ((process_message s msg env).1.response).getD ""⟩]) ∧
    (∀ (env : Env) (msgs : List String) (s : BotState),
      allOk s env msgs = true →
      (runMessages s env msgs).chat_history.length =
        s.chat_history.length + 2 * msgs.length) := by
  have part1 : ∀ (s : BotState) (msg : String) (env : Env),
      (process_message s msg env).1.isOk = true →
      (process_message s msg env).2.chat_history =
        s.chat_history ++ [⟨"user", msg⟩,
          ⟨"assistant", ((process_message s msg env).1.response).getD ""⟩] := by
    intro s msg env
    unfold process_message
    cases hw : s.email_workflow_active with
    | true =>
      have hhist := pws_history_eq s env msg
      cases hstep : process_workflow_step s env msg with
      | mk out s1 =>
        rw [hstep] at hhist
        dsimp only at hhist
        cases out with
        | exn e => intro h; simp [PResult.isOk, hw, hstep] at h
        | ok r' =>
          intro _
          simp [appendTurns, PResult.response, hw, hstep, hhist]
    | false =>
      cases hp : s.email_confirmation_pending with
      | true =>
        cases ha : isAffirmative msg <;> intro _ <;>
          simp [appendTurns, PResult.response, hw, hp, ha]
      | false =>
        rcases hdep : dictGet (analyze_with_gemini env.gemini) "department" with _ | dep
        · intro h; simp [PResult.isOk, hw, hp, hdep] at h
        · rcases hconf : dictGet (analyze_with_gemini env.gemini) "confidence" with _ | conf
          · intro h; simp [PResult.isOk, hw, hp, hdep, hconf] at h
          · rcases hur : strOrTypeError (dictGet (analyze_with_gemini env.gemini) "user_response")
                "I\x27ll help you with that." with e | br
            · intro h; simp [PResult.isOk, hw, hp, hdep, hconf, hur] at h
            · intro _
              simp [PResult.response, hw, hp, hdep, hconf, hur, List.append_assoc]
  refine ⟨part1, ?_⟩
  intro env msgs
  induction msgs with
  | nil => intro s _; simp [runMessages, allOk]
  | cons m ms ih =>
    intro s hall
    simp only [allOk, Bool.and_eq_true] at hall
    obtain ⟨hok, hrest⟩ := hall
    have h1 := part1 s m env hok
    have h2 := ih (process_message s m env).2 hrest
    simp only [runMessages] at h2 ⊢
    rw [h2, h1]
    simp [List.length_append]
    ring

/-- Witness for the amended C4: a full happy-path exchange (normal message,
confirmation, then the four slots) grows a fresh session's log to exactly
2 × 6 turns. -/
theorem C4_turns_per_exchange_witness :
    allOk (initState "w4") envSendOk
      ["My invoice amount looks wrong", "yes", "Jane", "jane@acme.com", "Acme", "none"] = true ∧
    (runMessages (initState "w4") envSendOk
      ["My invoice amount looks wrong", "yes", "Jane", "jane@acme.com", "Acme", "none"]).chat_history.length = 12 := by
  refine ⟨by decide, ?_⟩
  have := C4_turns_per_exchange.2 envSendOk
    ["My invoice amount looks wrong", "yes", "Jane", "jane@acme.com", "Acme", "none"]
    (initState "w4") (by decide)
  simpa using this

/- ---------------- C6: controller reset ---------------- -/

/-- C6: `reset_conversation` returns the session to `NORMAL` with every
workflow slot cleared, an empty turn log, department and confidence cleared,
the step counter at 0, and the freshly drawn identifier installed; the
identifier differs from the prior one whenever the uuid draw is fresh
(hypothesis `hfresh`, the model of `uuid.uuid4()` collision-freedom). -/
theorem C6_reset_clears_session (s : BotState) (freshUuid : String)
    (hfresh : freshUuid ≠ s.session_id) :
    phaseOf (reset_conversation s freshUuid) = some .NORMAL ∧
    (reset_conversation s freshUuid).chat_history = [] ∧
    (reset_conversation s freshUuid).email_data = {} ∧
    (reset_conversation s freshUuid).identified_department = none ∧
    (reset_conversation s freshUuid).department_confidence = .n 0 ∧
    (reset_conversation s freshUuid).current_step = 0 ∧
    (reset_conversation s freshUuid).original_user_question = "" ∧
    (reset_conversation s freshUuid).session_id = freshUuid ∧
    (reset_conversation s freshUuid).session_id ≠ s.session_id := by
  exact ⟨rfl, rfl, rfl, rfl, rfl, rfl, rfl, rfl, hfresh⟩

/-- Witness for C6 at a concrete state and a fresh identifier. -/
theorem C6_reset_clears_session_witness :
    ("uuid-new" : String) ≠ sDetails.session_id ∧
    phaseOf (reset_conversation sDetails "uuid-new") = some .NORMAL ∧
    (reset_conversation sDetails "uuid-new").chat_history = [] ∧
    (reset_conversation sDetails "uuid-new").session_id ≠ sDetails.session_id := by
  have hthm := C6_reset_clears_session sDetails "uuid-new" (by decide)
  exact ⟨by decide, hthm.1, hthm.2.1, hthm.2.2.2.2.2.2.2.2⟩

/- ---------------- C8 and C10: backend registry behavior ---------------- -/

lemma registryGet_set_self (reg : Registry) (k : String) (v : BotState) :
    registryGet (registrySet reg k v) k = some v := by
  induction reg with
  | nil => simp [registrySet, registryGet]
  | cons p rest ih =>
    obtain ⟨k', v'⟩ := p
    by_cases h : k' = k <;> simp [registrySet, registryGet, h, ih]

lemma registryGet_set_other (reg : Registry) (k k' : String) (v : BotState)
    (h : k' ≠ k) : registryGet (registrySet reg k v) k' = registryGet reg k' := by
  have h' : ¬ k = k' := fun hx => h hx.symm
  induction reg with
  | nil => simp [registrySet, registryGet, h']
  | cons p rest ih =>
    obtain ⟨k0, v0⟩ := p
    by_cases h0 : k0 = k
    · subst h0
      simp [registrySet, registryGet, h']
    · simp [registrySet, registryGet, h0, ih]

/-- C8: after a reset request for a registered session identifier, the
registry still maps the old identifier to the now-reset controller and holds
no entry for the returned fresh identifier; hence a subsequent chat request
under the fresh identifier creates a brand-new controller with an empty turn
log (rather than reusing the reset one), and the old registry entry no longer
satisfies the key = controller-session-id invariant. -/
theorem C8_reset_leaves_registry_stale (reg : Registry) (sid freshId apiKey : String)
    (c : BotState)
    (hsid : sid ≠ "")
    (hreg : registryGet reg sid = some c)
    (hfresh : registryGet reg freshId = none) :
    (api_reset reg (some sid) freshId).1.new_session_id = some freshId ∧
    registryGet (api_reset reg (some sid) freshId).2 sid =
      some (reset_conversation c freshId) ∧
    registryGet (api_reset reg (some sid) freshId).2 freshId = none ∧
    (reset_conversation c freshId).session_id = freshId ∧
    freshId ≠ sid ∧
    get_chatbot (api_reset reg (some sid) freshId).2 freshId (some apiKey) =
      .ok (initState freshId,
        registrySet (api_reset reg (some sid) freshId).2 freshId (initState freshId)) ∧
    (initState freshId).chat_history = [] := by
  have hne : freshId ≠ sid := by
    intro heq
    rw [heq, hreg] at hfresh
    exact Option.noConfusion hfresh
  have hreg2 : (api_reset reg (some sid) freshId).2 =
      registrySet reg sid (reset_conversation c freshId) := by
    simp [api_reset, hsid, hreg]
  have hnew : registryGet (api_reset reg (some sid) freshId).2 freshId = none := by
    rw [hreg2, registryGet_set_other reg sid freshId _ hne, hfresh]
  refine ⟨?_, ?_, hnew, rfl, hne, ?_, rfl⟩
  · simp [api_reset, hsid, hreg, reset_conversation]
  · rw [hreg2]
    exact registryGet_set_self reg sid (reset_conversation c freshId)
  · simp [get_chatbot, hnew]

/-- Witness for C8 on a one-entry registry. -/
theorem C8_reset_leaves_registry_stale_witness :
    registryGet [("s1", initState "s1")] "s1" = some (initState "s1") ∧
    registryGet [("s1", initState "s1")] "f1" = none ∧
    (api_reset [("s1", initState "s1")] (some "s1") "f1").1.new_session_id = some "f1" ∧
    registryGet (api_reset [("s1", initState "s1")] (some "s1") "f1").2 "s1" =
      some (reset_conversation (initState "s1") "f1") ∧
    registryGet (api_reset [("s1", initState "s1")] (some "s1") "f1").2 "f1" = none ∧
    get_chatbot (api_reset [("s1", initState "s1")] (some "s1") "f1").2 "f1" (some "k") =
      .ok (initState "f1",
        registrySet (api_reset [("s1", initState "s1")] (some "s1") "f1").2 "f1"
          (initState "f1")) := by
  have hthm := C8_reset_leaves_registry_stale [("s1", initState "s1")] "s1" "f1" "k"
    (initState "s1") (by decide) (by decide) (by decide)
  exact ⟨by decide, by decide, hthm.1, hthm.2.1, hthm.2.2.1, hthm.2.2.2.2.2.1⟩

/-- C10: a history request for a session identifier that is not in the
registry returns HTTP 200 with `success: true`, an empty history, a null
identified department and a null session identifier — never an error status
for an unknown session. (An absent or empty identifier is rejected earlier as
a 400 "session_id is required", before any registry lookup, hence the
non-emptiness hypothesis.) -/
theorem C10_history_unknown_session (reg : Registry) (sid : String)
    (hsid : sid ≠ "") (h : registryGet reg sid = none) :
    api_history reg (some sid) =
      { httpStatus := 200, success := true, history := [],
        identified_department := none, session_id_value := none, error := none } := by
  simp [api_history, hsid, h]

/-- Witness for C10: unknown identifier on an empty registry. -/
theorem C10_history_unknown_session_witness :
    registryGet [] "nope" = none ∧
    api_history [] (some "nope") =
      { httpStatus := 200, success := true, history := [],
        identified_department := none, session_id_value := none, error := none } := by
  exact ⟨rfl, C10_history_unknown_session [] "nope" (by decide) rfl⟩

end SupportRouter
